import Mathlib

/-!
Shallow embedding of `src/gst-libs/gst/sync-server/sync-client.c`
(gst-sync-server's client-side reconciliation and seek-coordination
state machine).

Modelling conventions:
* `GstClockTime` / `guint64` values are `Nat`s; every arithmetic site that
  wraps in C carries an explicit `% 2^64`.
* External calls (pipeline state changes, seeks, position queries, clock
  waits) are modelled by oracle parameters carried on the event, and the
  commands the client issues to the pipeline are collected in a `List Cmd`
  effect log, in program order.
* Each bus-callback invocation and each `update_sync_info` invocation is
  one atomic step, mirroring the info-lock discipline of the C code.
-/

namespace SyncClientModel

/-- 2^64, the modulus of `GstClockTime` / `guint64` arithmetic. -/
def U64 : Nat := 18446744073709551616

/-- `DEFAULT_SEEK_TOLERANCE = 200 * GST_MSECOND` in nanoseconds. -/
def DEFAULT_SEEK_TOLERANCE : Nat := 200 * 1000000

/-- The seek sub-state machine's states (the C `NEED_SEEK`/`IN_SEEK`/
`DONE_SEEK` enum stored in `self->seek_state`). -/
inductive SeekState where
  | NEED_SEEK
  | IN_SEEK
  | DONE_SEEK
deriving DecidableEq, Repr

/-- The GStreamer pipeline states the client commands or observes. -/
inductive GstState where
  | GST_STATE_NULL
  | GST_STATE_READY
  | GST_STATE_PAUSED
  | GST_STATE_PLAYING
deriving DecidableEq, Repr

/-- Result of `gst_element_set_state`. -/
inductive StateChangeReturn where
  | FAILURE
  | SUCCESS
  | ASYNC
  | NO_PREROLL
deriving DecidableEq, Repr

/-- One snapshot of shared playback state (`GstSyncServerInfo`), accessed
through its `gst_sync_server_info_get_*` getters in the C code. -/
structure SyncServerInfo where
  uri : String
  clock_address : String
  clock_port : Nat
  base_time : Nat
  base_time_offset : Nat
  latency : Nat
  stopped : Bool
  paused : Bool
deriving DecidableEq, Repr

/-- Commands / effects the client issues to its collaborators, logged in
program order. -/
inductive Cmd where
  /-- `g_object_set (pipeline, "uri", uri, NULL)` -/
  | setUri (u : String)
  /-- `gst_pipeline_set_latency` -/
  | setLatency (l : Nat)
  /-- `gst_element_set_state (pipeline, s)` -/
  | setState (s : GstState)
  /-- `gst_element_set_start_time (pipeline, GST_CLOCK_TIME_NONE)` -/
  | setStartTimeNone
  /-- `gst_element_set_base_time (pipeline, t)` -/
  | setBaseTime (t : Nat)
  /-- `gst_element_seek_simple (pipeline, GST_FORMAT_TIME, SNAP_AFTER | KEY_UNIT | FLUSH, pos)` -/
  | seekSimple (pos : Nat)
  /-- `gst_element_query_position (pipeline, GST_FORMAT_TIME, ...)` -/
  | queryPosition
  /-- `gst_net_client_clock_new ("sync-server-clock", addr, port, 0)` -/
  | connectClock (addr : String) (port : Nat)
  /-- `gst_pipeline_use_clock (pipeline, clock)`, `g_object_set (clock, "bus", bus, NULL)` -/
  | useClock
  /-- `gst_bus_add_watch` + `gst_bus_enable_sync_message_emission` + sync-message handler -/
  | addBusWatch
deriving DecidableEq, Repr

/-- The mutable fields of `struct _GstSyncClient` that the reconciliation
and seek logic reads and writes. -/
structure SyncClient where
  info : Option SyncServerInfo
  synchronised : Bool
  seek_state : SeekState
  seek_offset : Nat
deriving DecidableEq, Repr

/-- `gst_sync_client_init`: `info = NULL`, `synchronised = FALSE`,
`seek_offset = 0`, `seek_state = NEED_SEEK`. -/
def initClient : SyncClient :=
  { info := none
    synchronised := false
    seek_state := SeekState.NEED_SEEK
    seek_offset := 0 }

/-- `set_base_time`: sets the start time to NONE and the pipeline base time
to `base_time + base_time_offset + seek_offset` (guint64 addition, wrapping
mod 2^64). Called with `self->info` non-NULL. -/
def set_base_time (info : SyncServerInfo) (seek_offset : Nat) : List Cmd :=
  [Cmd.setStartTimeNone,
   Cmd.setBaseTime ((info.base_time + info.base_time_offset + seek_offset) % U64)]

/-- The value of the C local `is_live` after the `switch` on the result of
`gst_element_set_state (pipeline, GST_STATE_PAUSED)` in `update_pipeline`.
On `GST_STATE_CHANGE_FAILURE` the C code only warns and breaks, leaving
`is_live` UNINITIALIZED; the indeterminate value is the `junk` parameter. -/
def is_live_of (ret : StateChangeReturn) (junk : Bool) : Bool :=
  match ret with
  | StateChangeReturn.NO_PREROLL => true
  | StateChangeReturn.FAILURE => junk
  | _ => false

/-- `update_pipeline` (called with the info lock held, `self->info` the
snapshot to apply). `pausedRet` is the oracle result of the
`gst_element_set_state (pipeline, GST_STATE_PAUSED)` call; `junk` is the
indeterminate value `is_live` holds when that call fails. Returns the
updated client fields and the pipeline commands issued, in order. -/
def update_pipeline (info : SyncServerInfo) (self : SyncClient)
    (pausedRet : StateChangeReturn) (junk : Bool) : SyncClient × List Cmd :=
  let cmds := [Cmd.setUri info.uri, Cmd.setLatency info.latency]
  if info.stopped then
    -- "Just stop the pipeline and we're done"
    (self, cmds ++ [Cmd.setState GstState.GST_STATE_NULL])
  else
    let cmds := cmds ++ [Cmd.setState GstState.GST_STATE_PAUSED]
    let is_live := is_live_of pausedRet junk
    let self := { self with
      seek_offset := 0
      seek_state := if is_live then SeekState.DONE_SEEK else SeekState.NEED_SEEK }
    if !info.paused then
      (self, cmds ++ set_base_time info self.seek_offset ++
        [Cmd.setState GstState.GST_STATE_PLAYING])
    else
      (self, cmds)

/-- `cur_pos = now - base_time - base_time_offset`: guint64 subtraction,
wrapping mod 2^64 (each operand is itself a guint64). -/
def cur_pos_calc (now bt bto : Nat) : Nat :=
  (now % U64 + (U64 + U64) - bt % U64 - bto % U64) % U64

/-- One bus-callback invocation, as an event bundled with the oracle
results of the external calls the handler makes:
* `element`: a `GST_MESSAGE_ELEMENT`; `isStats` is whether its structure is
  named "gst-netclock-statistics", `msgSync` its "synchronised" boolean,
  `waitOk` the result of `gst_clock_wait_for_sync (clock, 10s)`, and
  `pausedRet`/`junk` feed the `update_pipeline` call made on success.
* `stateChanged`: a `GST_MESSAGE_STATE_CHANGED`; `srcIsPipeline` is whether
  `GST_MESSAGE_SRC == pipeline`, `old`/`new` the parsed states, `now` the
  result of `gst_clock_get_time (clock)`, `seekOk` the result of the
  `gst_element_seek_simple` call (if made).
* `asyncDone`: a `GST_MESSAGE_ASYNC_DONE`; `queryOk`/`pos` the result of
  `gst_element_query_position`.
* `eos`: a `GST_MESSAGE_EOS` with its source check. -/
inductive BusEvent where
  | element (isStats msgSync waitOk : Bool)
      (pausedRet : StateChangeReturn) (junk : Bool)
  | stateChanged (srcIsPipeline : Bool) (old new : GstState)
      (now : Nat) (seekOk : Bool)
  | asyncDone (queryOk : Bool) (pos : Nat)
  | eos (srcIsPipeline : Bool)
deriving DecidableEq, Repr

/-- `bus_cb`: one invocation of the bus callback on one message.
If a branch dereferences `self->info` while it is NULL (never reached in
the C code, because the bus watch is installed only after the first sync
info stores `self->info`), the model leaves the state unchanged. -/
def bus_cb (self : SyncClient) (e : BusEvent) : SyncClient × List Cmd :=
  match e with
  | BusEvent.element isStats msgSync waitOk pausedRet junk =>
    if self.synchronised then (self, [])
    else if !isStats then (self, [])
    else
      -- gst_structure_get_boolean (st, "synchronised", &self->synchronised)
      let self := { self with synchronised := msgSync }
      if !self.synchronised then (self, [])
      else if !waitOk then
        ({ self with synchronised := false }, [])
      else
        match self.info with
        | some info => update_pipeline info self pausedRet junk
        | none => (self, [])
  | BusEvent.stateChanged srcIsPipeline old new now seekOk =>
    if self.seek_state != SeekState.NEED_SEEK || !srcIsPipeline then (self, [])
    else if old != GstState.GST_STATE_PAUSED && new != GstState.GST_STATE_PLAYING then
      (self, [])
    else
      let self := { self with seek_state := SeekState.IN_SEEK }
      match self.info with
      | some info =>
        let cp := cur_pos_calc now info.base_time info.base_time_offset
        if cp > DEFAULT_SEEK_TOLERANCE then
          if seekOk then
            (self, [Cmd.seekSimple cp])
          else
            ({ self with seek_state := SeekState.DONE_SEEK }, [Cmd.seekSimple cp])
        else
          -- "Not seeking as we're within the threshold"
          ({ self with seek_state := SeekState.DONE_SEEK }, [])
      | none => (self, [])
  | BusEvent.asyncDone queryOk pos =>
    if self.seek_state != SeekState.IN_SEEK then (self, [])
    else if queryOk then
      -- on success gst_element_query_position writes the position into
      -- self->seek_offset; on failure it leaves it untouched
      let self := { self with seek_offset := pos % U64 }
      match self.info with
      | some info =>
        ({ self with seek_state := SeekState.DONE_SEEK },
         Cmd.queryPosition :: set_base_time info self.seek_offset)
      | none =>
        ({ self with seek_state := SeekState.DONE_SEEK }, [Cmd.queryPosition])
    else
      ({ self with seek_state := SeekState.DONE_SEEK }, [Cmd.queryPosition])
  | BusEvent.eos srcIsPipeline =>
    if srcIsPipeline then (self, [Cmd.setState GstState.GST_STATE_NULL])
    else (self, [])

/-- `update_sync_info`: one snapshot delivery. `pausedRet`/`junk` feed the
`update_pipeline` call if one is made. -/
def update_sync_info (self : SyncClient) (info : SyncServerInfo)
    (pausedRet : StateChangeReturn) (junk : Bool) : SyncClient × List Cmd :=
  match self.info with
  | none =>
    -- First sync info update: store it, create the net client clock,
    -- attach it and the bus watch. No pipeline state command.
    ({ self with info := some info },
     [Cmd.connectClock info.clock_address info.clock_port,
      Cmd.useClock, Cmd.addBusWatch])
  | some old_info =>
    let self := { self with info := some info }
    if old_info.stopped != info.stopped || !(old_info.uri == info.uri) then
      -- "Pipeline was (un)stopped or URI changed, just reset completely"
      let r := update_pipeline info self pausedRet junk
      (r.1, Cmd.setState GstState.GST_STATE_NULL :: r.2)
    else if old_info.paused != info.paused then
      -- "Paused or unpaused"
      if !info.paused then
        (self, set_base_time info self.seek_offset ++
          [Cmd.setState GstState.GST_STATE_PLAYING])
      else
        (self, [Cmd.setState GstState.GST_STATE_PAUSED])
    else if old_info.base_time != info.base_time then
      -- "Base time changed, just reset pipeline completely"
      let r := update_pipeline info self pausedRet junk
      (r.1, Cmd.setState GstState.GST_STATE_NULL :: r.2)
    else
      (self, [])

/-- A top-level event delivered to the client: either a snapshot from the
control channel (handled by `update_sync_info`) or a bus message (handled
by `bus_cb`). -/
inductive TraceEvent where
  | snapshot (info : SyncServerInfo) (pausedRet : StateChangeReturn) (junk : Bool)
  | bus (e : BusEvent)
deriving DecidableEq, Repr

/-- One client step on one event. -/
def step (self : SyncClient) (te : TraceEvent) : SyncClient × List Cmd :=
  match te with
  | TraceEvent.snapshot info pausedRet junk =>
      update_sync_info self info pausedRet junk
  | TraceEvent.bus e => bus_cb self e

/-- Run a sequence of events, concatenating the command logs. -/
def run (self : SyncClient) : List TraceEvent → SyncClient × List Cmd
  | [] => (self, [])
  | te :: rest =>
    let r := step self te
    let r2 := run r.1 rest
    (r2.1, r.2 ++ r2.2)

/-! Concrete fixtures used by counterexamples and witnesses. -/

/-- A typical non-stopped, non-paused snapshot. -/
def infoA : SyncServerInfo :=
  { uri := "http://media.example.net/stream.webm"
    clock_address := "10.0.0.1"
    clock_port := 3002
    base_time := 1000
    base_time_offset := 0
    latency := 50000000
    stopped := false
    paused := false }

/-- `infoA` with only `base_time_offset` changed. -/
def infoA_offset : SyncServerInfo := { infoA with base_time_offset := 500000000 }

/-- A client that has applied `infoA` and is waiting for the pause→play
transition (`seek_state = NEED_SEEK`). -/
def clientNeedSeek : SyncClient :=
  { info := some infoA
    synchronised := true
    seek_state := SeekState.NEED_SEEK
    seek_offset := 0 }

/-- A client that has applied `infoA` and finished its seek phase. -/
def clientDoneSeek : SyncClient :=
  { info := some infoA
    synchronised := true
    seek_state := SeekState.DONE_SEEK
    seek_offset := 7 }

/-- A snapshot whose `base_time + base_time_offset` is exactly 2^64, so
the guint64 position subtraction wraps all the way back to 0. -/
def infoWrap : SyncServerInfo :=
  { infoA with base_time := U64 - 1, base_time_offset := 1 }

/-- A client waiting for its pause→play transition under `infoWrap`. -/
def clientWrap : SyncClient :=
  { info := some infoWrap
    synchronised := true
    seek_state := SeekState.NEED_SEEK
    seek_offset := 0 }

/-- A snapshot with a large base time, for the behind-the-timeline wrap
case. -/
def infoBig : SyncServerInfo :=
  { infoA with base_time := 1000000000, base_time_offset := 0 }

/-- A client waiting for its pause→play transition under `infoBig`. -/
def clientBig : SyncClient :=
  { info := some infoBig
    synchronised := true
    seek_state := SeekState.NEED_SEEK
    seek_offset := 0 }

/-- A trace event that is a clock-statistics element message on which
synchronization does NOT succeed (either the statistics report
unsynchronised, or the bounded 10 s `gst_clock_wait_for_sync` fails). -/
def isFailingClockStats : TraceEvent → Bool
  | TraceEvent.bus (BusEvent.element _ msgSync waitOk _ _) => !(msgSync && waitOk)
  | _ => false

/-! ## Claims -/

/-- C1: the claim says a state-changed event delivered with
`seekPhase = NeedSeek` triggers the begin-of-play handling only for a
paused-to-playing transition and that every other state-changed event is
ignored, leaving the state and pipeline unchanged.  The C guard
`old_state != GST_STATE_PAUSED && new_state != GST_STATE_PLAYING` also
lets a PAUSED→READY (teardown) transition through: at such an event the
handler reads the clock, moves to `IN_SEEK` and issues a corrective seek.
This theorem evaluates the code at that failing input. -/
theorem C1_paused_to_ready_not_ignored :
    bus_cb clientNeedSeek
        (BusEvent.stateChanged true GstState.GST_STATE_PAUSED
          GstState.GST_STATE_READY 1000001000 true) =
      ({ clientNeedSeek with seek_state := SeekState.IN_SEEK },
       [Cmd.seekSimple 1000000000]) := by
  decide

/-- C2: the claim says that when the pipeline rejects the command to the
paused state, the start/refresh procedure stops there: no seek-phase
reset, no time-base application, no play command.  In the C code the
`GST_STATE_CHANGE_FAILURE` case only logs and falls through: `seek_offset`
is reset to 0, `seek_state` is set from the *uninitialized* `is_live`,
and (snapshot not paused) the base time is applied and PLAYING is
commanded.  This theorem evaluates the code on the failing input, for
every possible indeterminate `is_live` value. -/
theorem C2_failure_still_resets_and_plays :
    ∀ junk : Bool,
      Cmd.setState GstState.GST_STATE_PLAYING ∈
        (update_pipeline infoA clientDoneSeek StateChangeReturn.FAILURE junk).2 ∧
      (update_pipeline infoA clientDoneSeek StateChangeReturn.FAILURE junk).1.seek_offset
          = 0 ∧
      (Cmd.setBaseTime ((infoA.base_time + infoA.base_time_offset) % U64)) ∈
        (update_pipeline infoA clientDoneSeek StateChangeReturn.FAILURE junk).2 := by
  decide

/-- C3 counterexample: a non-first snapshot differing from the previous
one only in `baseTimeOffset` produces no pipeline command at all — in
particular the effective base time is neither recomputed nor reapplied,
contrary to the claim. -/
theorem C3_offset_only_change_no_reapply :
    infoA.base_time_offset ≠ infoA_offset.base_time_offset ∧
    infoA.uri = infoA_offset.uri ∧
    infoA.stopped = infoA_offset.stopped ∧
    infoA.paused = infoA_offset.paused ∧
    infoA.base_time = infoA_offset.base_time ∧
    (update_sync_info clientDoneSeek infoA_offset StateChangeReturn.SUCCESS false).2
      = [] := by
  decide

/-- C3 amended: on a non-first snapshot update in which `baseTimeOffset`
differs but the four diffed fields (`stopped`, `uri`, `paused`,
`baseTime`) are all unchanged, the update stores the new snapshot and
issues no pipeline command: the effective base time is NOT recomputed or
reapplied during that update. -/
theorem C3_offset_only_change_is_noop (self : SyncClient)
    (old_info new_info : SyncServerInfo)
    (pausedRet : StateChangeReturn) (junk : Bool)
    (hinfo : self.info = some old_info)
    (hs : old_info.stopped = new_info.stopped)
    (hu : old_info.uri = new_info.uri)
    (hp : old_info.paused = new_info.paused)
    (hb : old_info.base_time = new_info.base_time) :
    update_sync_info self new_info pausedRet junk
      = ({ self with info := some new_info }, []) := by
  simp [update_sync_info, hinfo, hs, hu, hp, hb]

/-- C3 amended, witness. -/
theorem C3_offset_only_change_is_noop_witness :
    update_sync_info clientDoneSeek infoA_offset StateChangeReturn.SUCCESS false
      = ({ clientDoneSeek with info := some infoA_offset }, []) :=
  C3_offset_only_change_is_noop clientDoneSeek infoA infoA_offset
    StateChangeReturn.SUCCESS false rfl rfl rfl rfl rfl

/-- C10: when the snapshot's `stopped` flag is true, `update_pipeline`
applies the uri and latency, commands the NULL (idle) state and returns
before the seek-state reset: `seek_offset` and `seek_state` (and every
other client field) are left exactly as they were. -/
theorem C10_stopped_keeps_seek_fields (info : SyncServerInfo)
    (self : SyncClient) (pausedRet : StateChangeReturn) (junk : Bool)
    (hstop : info.stopped = true) :
    update_pipeline info self pausedRet junk
      = (self, [Cmd.setUri info.uri, Cmd.setLatency info.latency,
                Cmd.setState GstState.GST_STATE_NULL]) := by
  simp [update_pipeline, hstop]

/-- C10 witness. -/
theorem C10_stopped_keeps_seek_fields_witness :
    update_pipeline { infoA with stopped := true } clientDoneSeek
        StateChangeReturn.SUCCESS false
      = (clientDoneSeek,
         [Cmd.setUri infoA.uri, Cmd.setLatency infoA.latency,
          Cmd.setState GstState.GST_STATE_NULL]) :=
  C10_stopped_keeps_seek_fields { infoA with stopped := true } clientDoneSeek
    StateChangeReturn.SUCCESS false rfl

/-- C4: at a pause→play state-changed event handled with
`seek_state = NEED_SEEK`, a corrective seek to
`cur_pos = now − baseTime − baseTimeOffset` is issued if and only if
`cur_pos` exceeds the 200 ms tolerance; when `cur_pos` is at or below the
tolerance, no command at all is issued and the seek phase ends the
handler at `DONE_SEEK` with `seek_offset` unchanged. -/
theorem C4_seek_iff_above_tolerance (self : SyncClient)
    (info : SyncServerInfo) (now : Nat) (seekOk : Bool)
    (hseek : self.seek_state = SeekState.NEED_SEEK)
    (hinfo : self.info = some info) :
    (Cmd.seekSimple (cur_pos_calc now info.base_time info.base_time_offset) ∈
        (bus_cb self (BusEvent.stateChanged true GstState.GST_STATE_PAUSED
          GstState.GST_STATE_PLAYING now seekOk)).2 ↔
      DEFAULT_SEEK_TOLERANCE < cur_pos_calc now info.base_time info.base_time_offset) ∧
    (cur_pos_calc now info.base_time info.base_time_offset ≤ DEFAULT_SEEK_TOLERANCE →
      (bus_cb self (BusEvent.stateChanged true GstState.GST_STATE_PAUSED
          GstState.GST_STATE_PLAYING now seekOk)).1
        = { self with seek_state := SeekState.DONE_SEEK } ∧
      (bus_cb self (BusEvent.stateChanged true GstState.GST_STATE_PAUSED
          GstState.GST_STATE_PLAYING now seekOk)).2 = []) := by
  have h1 : (self.seek_state != SeekState.NEED_SEEK || !true) = false := by
    simp [hseek]
  by_cases hcp :
      DEFAULT_SEEK_TOLERANCE < cur_pos_calc now info.base_time info.base_time_offset
  · cases seekOk <;>
      simp [bus_cb, h1, hseek, hinfo, hcp, le_of_lt hcp, Nat.not_le_of_lt hcp]
  · cases seekOk <;>
      simp [bus_cb, h1, hseek, hinfo, hcp, Nat.le_of_not_lt hcp]

/-- C4 witness: with `now = 150 ms + baseTime` the position is within the
tolerance, so no seek is issued and the phase ends at `DONE_SEEK`. -/
theorem C4_seek_iff_above_tolerance_witness :
    (Cmd.seekSimple (cur_pos_calc 150001000 infoA.base_time infoA.base_time_offset) ∈
        (bus_cb clientNeedSeek (BusEvent.stateChanged true GstState.GST_STATE_PAUSED
          GstState.GST_STATE_PLAYING 150001000 true)).2 ↔
      DEFAULT_SEEK_TOLERANCE < cur_pos_calc 150001000 infoA.base_time infoA.base_time_offset) ∧
    (cur_pos_calc 150001000 infoA.base_time infoA.base_time_offset ≤ DEFAULT_SEEK_TOLERANCE →
      (bus_cb clientNeedSeek (BusEvent.stateChanged true GstState.GST_STATE_PAUSED
          GstState.GST_STATE_PLAYING 150001000 true)).1
        = { clientNeedSeek with seek_state := SeekState.DONE_SEEK } ∧
      (bus_cb clientNeedSeek (BusEvent.stateChanged true GstState.GST_STATE_PAUSED
          GstState.GST_STATE_PLAYING 150001000 true)).2 = []) :=
  C4_seek_iff_above_tolerance clientNeedSeek infoA 150001000 true rfl rfl

/-- C5: at a seek-completion (async-done) event handled with
`seek_state = IN_SEEK`: the phase ends the handler at `DONE_SEEK` whether
or not the position query succeeded; on success with actual position
`pos`, `seek_offset` becomes `pos` and the base time applied to the
pipeline is `baseTime + baseTimeOffset + pos`; on failure `seek_offset`
keeps its prior value. -/
theorem C5_async_done_folds_position (self : SyncClient)
    (info : SyncServerInfo) (queryOk : Bool) (pos : Nat)
    (hseek : self.seek_state = SeekState.IN_SEEK)
    (hinfo : self.info = some info)
    (hsum : info.base_time + info.base_time_offset + pos < U64) :
    ((bus_cb self (BusEvent.asyncDone queryOk pos)).1.seek_state
        = SeekState.DONE_SEEK) ∧
    (queryOk = true →
      (bus_cb self (BusEvent.asyncDone queryOk pos)).1.seek_offset = pos ∧
      Cmd.setBaseTime (info.base_time + info.base_time_offset + pos) ∈
        (bus_cb self (BusEvent.asyncDone queryOk pos)).2) ∧
    (queryOk = false →
      (bus_cb self (BusEvent.asyncDone queryOk pos)).1.seek_offset
        = self.seek_offset) := by
  have hpos : pos < U64 := by omega
  have hmod : pos % U64 = pos := Nat.mod_eq_of_lt hpos
  have hmod2 : (info.base_time + info.base_time_offset + pos) % U64
      = info.base_time + info.base_time_offset + pos := Nat.mod_eq_of_lt hsum
  cases queryOk <;>
    simp [bus_cb, hseek, hinfo, set_base_time, hmod, hmod2]

/-- C5 witness: a successful query at position 310 ms folds the offset in
and reapplies base time 1000 + 0 + 310000000. -/
theorem C5_async_done_folds_position_witness :
    (((bus_cb { clientNeedSeek with seek_state := SeekState.IN_SEEK }
        (BusEvent.asyncDone true 310000000)).1.seek_state
        = SeekState.DONE_SEEK) ∧
    (true = true →
      (bus_cb { clientNeedSeek with seek_state := SeekState.IN_SEEK }
          (BusEvent.asyncDone true 310000000)).1.seek_offset = 310000000 ∧
      Cmd.setBaseTime (infoA.base_time + infoA.base_time_offset + 310000000) ∈
        (bus_cb { clientNeedSeek with seek_state := SeekState.IN_SEEK }
          (BusEvent.asyncDone true 310000000)).2) ∧
    (true = false →
      (bus_cb { clientNeedSeek with seek_state := SeekState.IN_SEEK }
          (BusEvent.asyncDone true 310000000)).1.seek_offset
        = { clientNeedSeek with seek_state := SeekState.IN_SEEK }.seek_offset)) :=
  C5_async_done_folds_position
    { clientNeedSeek with seek_state := SeekState.IN_SEEK } infoA true 310000000
    rfl rfl (by decide)

/-- `update_pipeline` never touches the `synchronised` field. -/
theorem update_pipeline_synchronised (info : SyncServerInfo)
    (self : SyncClient) (pausedRet : StateChangeReturn) (junk : Bool) :
    ((update_pipeline info self pausedRet junk).1).synchronised
      = self.synchronised := by
  unfold update_pipeline
  split <;> simp
  split <;> simp

/-- `update_sync_info` never touches the `synchronised` field. -/
theorem update_sync_info_synchronised (self : SyncClient)
    (info : SyncServerInfo) (pausedRet : StateChangeReturn) (junk : Bool) :
    ((update_sync_info self info pausedRet junk).1).synchronised
      = self.synchronised := by
  unfold update_sync_info
  cases hi : self.info with
  | none => rfl
  | some old_info =>
    simp only []
    split
    · simp [update_pipeline_synchronised]
    · split
      · split <;> simp
      · split
        · simp [update_pipeline_synchronised]
        · simp

/-- Once `synchronised` is true, no bus callback resets it: the element
handler returns at its first guard, and the other handlers never write
the field. -/
theorem bus_cb_synchronised_of_true (self : SyncClient) (e : BusEvent)
    (h : self.synchronised = true) :
    ((bus_cb self e).1).synchronised = true := by
  cases e with
  | element isStats msgSync waitOk pausedRet junk => simp [bus_cb, h]
  | stateChanged srcIsPipeline old new now seekOk =>
    simp only [bus_cb]
    split
    · exact h
    · split
      · exact h
      · cases hi : self.info with
        | none => simp [hi, h]
        | some info =>
          simp only [hi]
          split
          · split <;> simp [h]
          · simp [h]
  | asyncDone queryOk pos =>
    simp only [bus_cb]
    split
    · exact h
    · split
      · cases hi : self.info with
        | none => simp [hi, h]
        | some info => simp [hi, h]
      · simp [h]
  | eos srcIsPipeline =>
    simp only [bus_cb]
    split <;> simp [h]

/-- C6: `synchronised` starts false and is monotone at event granularity:
no step (snapshot update or bus-callback invocation) ever takes it from
true back to false. -/
theorem C6_synchronised_monotone :
    initClient.synchronised = false ∧
    ∀ (self : SyncClient) (te : TraceEvent),
      self.synchronised = true → ((step self te).1).synchronised = true := by
  refine ⟨rfl, fun self te h => ?_⟩
  cases te with
  | snapshot info pausedRet junk =>
    have hp := update_sync_info_synchronised self info pausedRet junk
    simpa [step, hp] using h
  | bus e => exact bus_cb_synchronised_of_true self e h

/-- C6 witness. -/
theorem C6_synchronised_monotone_witness :
    ((step clientDoneSeek (TraceEvent.bus (BusEvent.eos true))).1).synchronised
      = true :=
  C6_synchronised_monotone.2 clientDoneSeek (TraceEvent.bus (BusEvent.eos true)) rfl

/-- A failing clock-statistics event on an unsynchronised client issues
no command and leaves the client unsynchronised. -/
theorem step_failing_stats (self : SyncClient) (te : TraceEvent)
    (hsync : self.synchronised = false)
    (hte : isFailingClockStats te = true) :
    ((step self te).1).synchronised = false ∧ (step self te).2 = [] := by
  cases te with
  | snapshot info pausedRet junk => simp [isFailingClockStats] at hte
  | bus e =>
    cases e with
    | element isStats msgSync waitOk pausedRet junk =>
      simp only [isFailingClockStats] at hte
      cases isStats <;> cases msgSync <;> cases waitOk <;>
        simp_all [step, bus_cb]
    | stateChanged srcIsPipeline old new now seekOk =>
      simp [isFailingClockStats] at hte
    | asyncDone queryOk pos => simp [isFailingClockStats] at hte
    | eos srcIsPipeline => simp [isFailingClockStats] at hte

/-- A whole trace of failing clock-statistics events, starting from an
unsynchronised client, issues no command at all. -/
theorem run_failing_stats (es : List TraceEvent) (self : SyncClient)
    (hsync : self.synchronised = false)
    (hes : es.all isFailingClockStats = true) :
    (run self es).2 = [] := by
  induction es generalizing self with
  | nil => rfl
  | cons te rest ih =>
    rw [List.all_cons, Bool.and_eq_true] at hes
    have hstep := step_failing_stats self te hsync hes.1
    have ihr := ih ((step self te).1) hstep.1 hes.2
    simp [run, hstep.2, ihr]

/-- C7: if, after the first snapshot, the reference clock never reports
successful synchronization (every clock-statistics event fails either the
reported flag or the bounded wait), then no pipeline state command is
ever issued: the first update only wires up the clock and bus, and every
failing statistics event is a no-op. -/
theorem C7_sync_timeout_no_state_command (first : SyncServerInfo)
    (pausedRet : StateChangeReturn) (junk : Bool) (es : List TraceEvent)
    (hes : es.all isFailingClockStats = true) (g : GstState) :
    Cmd.setState g ∉
      (run initClient (TraceEvent.snapshot first pausedRet junk :: es)).2 := by
  have h1 : step initClient (TraceEvent.snapshot first pausedRet junk)
      = ({ initClient with info := some first },
         [Cmd.connectClock first.clock_address first.clock_port,
          Cmd.useClock, Cmd.addBusWatch]) := rfl
  have h2 := run_failing_stats es { initClient with info := some first } rfl hes
  simp [run, h1, h2]

/-- C7 witness: first snapshot followed by two failing statistics events
(one where the wait times out, one reporting unsynchronised) issues no
PLAYING command. -/
theorem C7_sync_timeout_no_state_command_witness :
    Cmd.setState GstState.GST_STATE_PLAYING ∉
      (run initClient
        (TraceEvent.snapshot infoA StateChangeReturn.SUCCESS false ::
         [TraceEvent.bus
            (BusEvent.element true true false StateChangeReturn.SUCCESS false),
          TraceEvent.bus
            (BusEvent.element true false false StateChangeReturn.SUCCESS false)])).2 :=
  C7_sync_timeout_no_state_command infoA StateChangeReturn.SUCCESS false
    [TraceEvent.bus
       (BusEvent.element true true false StateChangeReturn.SUCCESS false),
     TraceEvent.bus
       (BusEvent.element true false false StateChangeReturn.SUCCESS false)]
    (by decide) GstState.GST_STATE_PLAYING

/-- C8 counterexample: on the first snapshot update the handler stores
the snapshot and wires up the reference clock and bus watch, but — contra
the claim — it does NOT configure the pipeline's source locator or
latency (those are applied only later, by `update_pipeline`, once the
clock has synchronised). -/
theorem C8_first_update_does_not_configure_source :
    (update_sync_info initClient infoA StateChangeReturn.SUCCESS false).2
      = [Cmd.connectClock "10.0.0.1" 3002, Cmd.useClock, Cmd.addBusWatch] ∧
    Cmd.setUri infoA.uri ∉
      (update_sync_info initClient infoA StateChangeReturn.SUCCESS false).2 ∧
    Cmd.setLatency infoA.latency ∉
      (update_sync_info initClient infoA StateChangeReturn.SUCCESS false).2 := by
  decide

/-- C8 amended: on the first snapshot update (no stored snapshot yet),
the handler stores the snapshot and initiates the reference-clock
connection with the snapshot's clock address and port, attaching the
clock and the bus watch to the pipeline; it issues no state command (and
no source/latency configuration — those happen in the start/refresh
procedure after synchronization is confirmed). -/
theorem C8_first_update_clock_only (self : SyncClient)
    (info : SyncServerInfo) (pausedRet : StateChangeReturn) (junk : Bool)
    (hinfo : self.info = none) :
    update_sync_info self info pausedRet junk
      = ({ self with info := some info },
         [Cmd.connectClock info.clock_address info.clock_port,
          Cmd.useClock, Cmd.addBusWatch]) := by
  simp [update_sync_info, hinfo]

/-- C8 amended, witness. -/
theorem C8_first_update_clock_only_witness :
    update_sync_info initClient infoA StateChangeReturn.SUCCESS false
      = ({ initClient with info := some infoA },
         [Cmd.connectClock infoA.clock_address infoA.clock_port,
          Cmd.useClock, Cmd.addBusWatch]) :=
  C8_first_update_clock_only initClient infoA StateChangeReturn.SUCCESS false rfl

/-- C9 counterexample: with `now = 0 < baseTime + baseTimeOffset = 2^64`,
the wrapped position `now − baseTime − baseTimeOffset (mod 2^64)` is 0,
which is NOT above the 200 ms tolerance: no corrective seek is issued and
the phase goes straight to `DONE_SEEK` — contradicting the claim that
every input with `now < baseTime + baseTimeOffset` wraps to a value far
above the tolerance and seeks. -/
theorem C9_wrap_can_fall_below_tolerance :
    0 < infoWrap.base_time + infoWrap.base_time_offset ∧
    cur_pos_calc 0 infoWrap.base_time infoWrap.base_time_offset = 0 ∧
    (bus_cb clientWrap (BusEvent.stateChanged true GstState.GST_STATE_PAUSED
        GstState.GST_STATE_PLAYING 0 true)).2 = [] ∧
    (bus_cb clientWrap (BusEvent.stateChanged true GstState.GST_STATE_PAUSED
        GstState.GST_STATE_PLAYING 0 true)).1.seek_state
      = SeekState.DONE_SEEK := by
  decide

/-- C9 amended: for guint64 inputs with `now < baseTime + baseTimeOffset`
whose deficit `baseTime + baseTimeOffset − now` is below `2^64 − 200 ms`,
the unsigned subtraction wraps to `2^64 − deficit`, which exceeds the
tolerance, and the pause→play handler issues a corrective seek to that
wrapped position. -/
theorem C9_wrap_above_tolerance_seeks (self : SyncClient)
    (info : SyncServerInfo) (now : Nat) (seekOk : Bool)
    (hseek : self.seek_state = SeekState.NEED_SEEK)
    (hinfo : self.info = some info)
    (h1 : now < U64) (h2 : info.base_time < U64)
    (h3 : info.base_time_offset < U64)
    (h4 : now < info.base_time + info.base_time_offset)
    (h5 : info.base_time + info.base_time_offset - now
            < U64 - DEFAULT_SEEK_TOLERANCE) :
    cur_pos_calc now info.base_time info.base_time_offset
      = U64 - (info.base_time + info.base_time_offset - now) ∧
    DEFAULT_SEEK_TOLERANCE
      < cur_pos_calc now info.base_time info.base_time_offset ∧
    Cmd.seekSimple (cur_pos_calc now info.base_time info.base_time_offset) ∈
      (bus_cb self (BusEvent.stateChanged true GstState.GST_STATE_PAUSED
        GstState.GST_STATE_PLAYING now seekOk)).2 := by
  have heq : cur_pos_calc now info.base_time info.base_time_offset
      = U64 - (info.base_time + info.base_time_offset - now) := by
    unfold cur_pos_calc
    unfold U64 DEFAULT_SEEK_TOLERANCE at *
    omega
  have hgt : DEFAULT_SEEK_TOLERANCE
      < cur_pos_calc now info.base_time info.base_time_offset := by
    rw [heq]
    unfold U64 DEFAULT_SEEK_TOLERANCE at *
    omega
  refine ⟨heq, hgt, ?_⟩
  have h0 : (self.seek_state != SeekState.NEED_SEEK || !true) = false := by
    simp [hseek]
  cases seekOk <;> simp [bus_cb, h0, hseek, hinfo, hgt]

/-- C9 amended, witness: `now = 0`, `baseTime = 10^9`, offset 0: the
wrapped position is `2^64 − 10^9` and a seek to it is issued. -/
theorem C9_wrap_above_tolerance_seeks_witness :
    (cur_pos_calc 0 infoBig.base_time infoBig.base_time_offset
      = U64 - (infoBig.base_time + infoBig.base_time_offset - 0)) ∧
    DEFAULT_SEEK_TOLERANCE
      < cur_pos_calc 0 infoBig.base_time infoBig.base_time_offset ∧
    Cmd.seekSimple (cur_pos_calc 0 infoBig.base_time infoBig.base_time_offset) ∈
      (bus_cb clientBig (BusEvent.stateChanged true GstState.GST_STATE_PAUSED
        GstState.GST_STATE_PLAYING 0 true)).2 :=
  C9_wrap_above_tolerance_seeks clientBig infoBig 0 true rfl rfl
    (by decide) (by decide) (by decide) (by decide) (by decide)

end SyncClientModel
